import Mathlib

/-!
Verification of the forecast pipeline in src/rnbe_pronostico.py.

The Python module is embedded shallowly: floats become real numbers,
Optional[float] becomes Option ℝ, hourly JSON series become a record of
parallel lists, and the two report formatters produce lists of lines.
Python library primitives used by the code (float modulo, int() truncation,
round() half-to-even, math.radians/degrees/atan2, string comparison) are
defined first, each mirroring the CPython semantics on real numbers.
-/

noncomputable section

/-- Python float modulo with a positive modulus: x % y = x - y * floor (x / y). -/
def fmod (x y : ℝ) : ℝ := x - y * ⌊x / y⌋

/-- Python int() applied to a float: truncation toward zero. -/
def pyInt (x : ℝ) : ℤ := if 0 ≤ x then ⌊x⌋ else ⌈x⌉

/-- Python round() to an integer: round half to even. -/
def pyRound (x : ℝ) : ℤ :=
  if Int.fract x < 1 / 2 then ⌊x⌋
  else if 1 / 2 < Int.fract x then ⌊x⌋ + 1
  else if ⌊x⌋ % 2 = 0 then ⌊x⌋ else ⌊x⌋ + 1

/-- math.radians. -/
def radians (d : ℝ) : ℝ := d * Real.pi / 180

/-- math.degrees. -/
def degrees (x : ℝ) : ℝ := x * 180 / Real.pi

/-- math.atan2 y x: the argument of the complex number x + y*I, in (-pi, pi]. -/
def atan2 (y x : ℝ) : ℝ := Complex.arg ⟨x, y⟩

/-- circular_mean_deg (rnbe_pronostico.py lines 54-59): vector average of
directions given in degrees, normalized into [0, 360). -/
def circular_mean_deg (degs : List ℝ) : ℝ :=
  let sin_sum := (degs.map fun d => Real.sin (radians d)).sum
  let cos_sum := (degs.map fun d => Real.cos (radians d)).sum
  fmod (degrees (atan2 sin_sum cos_sum) + 360) 360

/-- COMPASS_16 (line 61): the sixteen Spanish compass labels, N first, clockwise. -/
def COMPASS_16 : List String :=
  ["N", "NNE", "NE", "ENE", "E", "ESE", "SE", "SSE",
   "S", "SSO", "SO", "OSO", "O", "ONO", "NO", "NNO"]

/-- deg_to_compass_es (lines 62-64): ix = int(deg/22.5 + 0.5) % 16, table lookup. -/
def deg_to_compass_es (deg : ℝ) : String :=
  COMPASS_16.getD (pyInt (deg / 22.5 + 0.5) % 16).toNat ""

/- ### Data model: hourly series, slot statistics -/

/-- SlotStats (lines 66-71). -/
structure SlotStats where
  speed_avg : ℝ
  gust_max : ℝ
  dir_avg_deg : ℝ
  dir_avg_txt : String

/-- The hourly JSON series: parallel lists keyed by field name, values optional. -/
structure HourlySeries where
  time : List String
  temperature_2m : List (Option ℝ)
  wind_speed_10m : List (Option ℝ)
  wind_gusts_10m : List (Option ℝ)
  wind_direction_10m : List (Option ℝ)
  precipitation_probability : List (Option ℝ)

/-- The alignment invariant: every field list is as long as the time axis. -/
def HourlySeries.wf (h : HourlySeries) : Prop :=
  h.temperature_2m.length = h.time.length ∧
  h.wind_speed_10m.length = h.time.length ∧
  h.wind_gusts_10m.length = h.time.length ∧
  h.wind_direction_10m.length = h.time.length ∧
  h.precipitation_probability.length = h.time.length

instance (h : HourlySeries) : Decidable h.wf := by
  unfold HourlySeries.wf
  infer_instance

/-- Python max over a list with a fallback: max(l or [d]). -/
def pymax (l : List ℝ) (d : ℝ) : ℝ :=
  match l with
  | [] => d
  | x :: xs => xs.foldl max x

/-- Python min over a list with a fallback: min(l or [d]). -/
def pymin (l : List ℝ) (d : ℝ) : ℝ :=
  match l with
  | [] => d
  | x :: xs => xs.foldl min x

/-- The hour component of a timestamp string: int(t[11:13]). -/
def hourOf (t : String) : ℕ :=
  ((t.data.drop 11).take 2).foldl (fun acc c => 10 * acc + (c.toNat - 48)) 0

/-- window_idx (lines 73-79): indices whose timestamp hour lies in [h0, h1). -/
def window_idx (times : List String) (h0 h1 : ℕ) : List ℕ :=
  (times.enum.filter fun p => decide (h0 ≤ hourOf p.2) && decide (hourOf p.2 < h1)).map
    Prod.fst

/-- stats_for_window (lines 81-91). -/
def stats_for_window (h : HourlySeries) (h0 h1 : ℕ) : SlotStats :=
  let idx := window_idx h.time h0 h1
  if idx.isEmpty then ⟨0, 0, 0, ""⟩ else
    let speeds := idx.filterMap fun i => h.wind_speed_10m.getD i none
    let gusts := idx.filterMap fun i => h.wind_gusts_10m.getD i none
    let dirs := idx.filterMap fun i => h.wind_direction_10m.getD i none
    let s_avg := if speeds.isEmpty then 0 else speeds.sum / (speeds.length : ℝ)
    let g_max := pymax gusts 0
    let d_avg := if dirs.isEmpty then 0 else circular_mean_deg dirs
    ⟨s_avg, g_max, d_avg, if dirs.isEmpty then "" else deg_to_compass_es d_avg⟩

/-- The slot dictionary built by get_slots: mediodia present only in the
detailed (breve=False) variant. -/
structure Slots where
  manana : SlotStats
  mediodia : Option SlotStats
  tarde : SlotStats

/-- get_slots (lines 123-127). -/
def get_slots (h : HourlySeries) (breve : Bool) : Slots :=
  if breve then ⟨stats_for_window h 6 12, none, stats_for_window h 12 20⟩
  else ⟨stats_for_window h 6 11, some (stats_for_window h 11 14), stats_for_window h 14 20⟩

/- ### Model merge and day slice -/

/-- The values present (not None) at index i of field f across the models. -/
def presentAt (models : List HourlySeries) (f : HourlySeries → List (Option ℝ))
    (i : ℕ) : List ℝ :=
  models.filterMap fun m => (f m).getD i none

/-- One merged scalar field: arithmetic mean of the present values per index. -/
def mergeArith (models : List HourlySeries) (f : HourlySeries → List (Option ℝ))
    (n : ℕ) : List (Option ℝ) :=
  (List.range n).map fun i =>
    let vals := presentAt models f i
    if vals.isEmpty then none else some (vals.sum / (vals.length : ℝ))

/-- The merged direction field: circular mean of the present values per index. -/
def mergeDir (models : List HourlySeries) (n : ℕ) : List (Option ℝ) :=
  (List.range n).map fun i =>
    let vals := presentAt models (fun m => m.wind_direction_10m) i
    if vals.isEmpty then none else some (circular_mean_deg vals)

/-- aggregate_models (lines 93-109): time axis of the first model, every field
merged per index across all models. -/
def aggregate_models (models_data : List HourlySeries) : HourlySeries :=
  match models_data with
  | [] => ⟨[], [], [], [], [], []⟩
  | m0 :: _ =>
    let n := m0.time.length
    { time := m0.time
      temperature_2m := mergeArith models_data (fun m => m.temperature_2m) n
      wind_speed_10m := mergeArith models_data (fun m => m.wind_speed_10m) n
      wind_gusts_10m := mergeArith models_data (fun m => m.wind_gusts_10m) n
      wind_direction_10m := mergeDir models_data n
      precipitation_probability :=
        mergeArith models_data (fun m => m.precipitation_probability) n }

/-- Code-point lexicographic order on character lists, as Python compares str. -/
def lexLe : List Char → List Char → Bool
  | [], _ => true
  | _ :: _, [] => false
  | a :: as, b :: bs => if a < b then true else if b < a then false else lexLe as bs

/-- Python string comparison s <= t (lexicographic on code points). -/
def strLe (s t : String) : Bool := lexLe s.data t.data

/-- day_slice (lines 111-121): keep the indices whose timestamp lies between
dT00:00 and dT23:59 inclusive, fields taken from the same index. -/
def day_slice (hourly : HourlySeries) (d : String) : HourlySeries :=
  let start := d ++ "T00:00"
  let stop := d ++ "T23:59"
  let sel := hourly.time.enum.filter fun p => strLe start p.2 && strLe p.2 stop
  { time := sel.map Prod.snd
    temperature_2m := sel.map fun p => hourly.temperature_2m.getD p.1 none
    wind_speed_10m := sel.map fun p => hourly.wind_speed_10m.getD p.1 none
    wind_gusts_10m := sel.map fun p => hourly.wind_gusts_10m.getD p.1 none
    wind_direction_10m := sel.map fun p => hourly.wind_direction_10m.getD p.1 none
    precipitation_probability :=
      sel.map fun p => hourly.precipitation_probability.getD p.1 none }

/- ### Risk classifier -/

/-- The four numeric limits of cfg["semaforo_thresholds"]. -/
structure Thresholds where
  green_max_sust : ℝ
  green_max_gust : ℝ
  yellow_max_sust : ℝ
  yellow_max_gust : ℝ

/-- semaforo (lines 129-138). -/
def semaforo (h : HourlySeries) (thr : Thresholds) : String :=
  let slots := get_slots h true
  let sust_max := max slots.manana.speed_avg slots.tarde.speed_avg
  let gust_max := max slots.manana.gust_max slots.tarde.gust_max
  let prob := pymax (h.precipitation_probability.filterMap id) 0
  if sust_max ≤ thr.green_max_sust ∧ gust_max ≤ thr.green_max_gust ∧ prob < 50 then "🟢"
  else if sust_max ≤ thr.yellow_max_sust ∧ gust_max ≤ thr.yellow_max_gust ∧ prob < 70
  then "🟡"
  else "🔴"

/- ### Text helpers and report formatters -/

/-- temp_range (lines 140-142). -/
def temp_range (h : HourlySeries) : String :=
  let vals := h.temperature_2m.filterMap id
  if vals.isEmpty then "__–__ °C"
  else toString (pyRound (pymin vals 0)) ++ "–" ++ toString (pyRound (pymax vals 0)) ++ " °C"

/-- precip_text (lines 144-150). -/
def precip_text (h : HourlySeries) : String :=
  let probs := h.precipitation_probability.filterMap id
  if probs.isEmpty then ""
  else
    let pm := pymax probs 0
    if 60 ≤ pm then "Probables lluvias/chaparrones"
    else if 30 ≤ pm then "Alguna chance de chaparrones"
    else "Sin lluvias relevantes"

/-- r0 (lines 152-153): int(round(x)). -/
def r0 (x : ℝ) : ℤ := pyRound x

/-- round1 (lines 155-156): the value of float(x rendered to one decimal). -/
def round1 (x : ℝ) : ℝ := (pyRound (x * 10) : ℝ) / 10

/-- The one-decimal rendering used by the technical table for round1 values. -/
def showRound1 (x : ℝ) : String :=
  let n := pyRound (x * 10)
  (if n < 0 then "-" else "") ++ toString (n.natAbs / 10) ++ "." ++ toString (n.natAbs % 10)

/-- A per-date river reading from niveles_san_fernando.json, rendered fields. -/
structure RiverLevel where
  min : String
  t_min : String
  max : String
  t_max : String

/-- The river line of the concise report (lines 178-181): reading or placeholders. -/
def whatsapp_river_line (river : Option RiverLevel) : String :=
  match river with
  | some r =>
    "🔻 " ++ r.min ++ " m (" ++ r.t_min ++ ") / 🔺 " ++ r.max ++ " m (" ++ r.t_max ++ ")"
  | none => "🔻 __ m (__:__) / 🔺 __ m (__:__)"

/-- The lines of fmt_whatsapp (lines 159-176) before the river line. -/
def whatsapp_core (day_name sem temp : String) (slots : Slots) (lluvia : String) :
    List String :=
  ["🗓️ " ++ day_name, sem, "🌡️ " ++ temp]
  ++ (if lluvia = "" then [] else ["☁️ " ++ lluvia])
  ++ [""]
  ++ ["💨 Mañana: " ++ toString (r0 slots.manana.speed_avg) ++ " km/h (ráf. "
      ++ toString (r0 slots.manana.gust_max) ++ ") " ++ slots.manana.dir_avg_txt]
  ++ (match slots.mediodia with
      | some md =>
        ["💨 Mediodía: " ++ toString (r0 md.speed_avg) ++ " km/h (ráf. "
          ++ toString (r0 md.gust_max) ++ ") " ++ md.dir_avg_txt ++ " → "
          ++ slots.manana.dir_avg_txt ++ "→" ++ md.dir_avg_txt]
      | none => [])
  ++ ["💨 Tarde: " ++ toString (r0 slots.tarde.speed_avg) ++ " km/h (ráf. "
      ++ toString (r0 slots.tarde.gust_max) ++ ") " ++ slots.tarde.dir_avg_txt ++ " → "
      ++ (slots.mediodia.getD slots.manana).dir_avg_txt ++ "→" ++ slots.tarde.dir_avg_txt]
  ++ [""]
  ++ (match slots.mediodia with
      | some md =>
        ["🌀 Rotación: " ++ slots.manana.dir_avg_txt ++ " → " ++ md.dir_avg_txt
          ++ " → " ++ slots.tarde.dir_avg_txt]
      | none =>
        ["🌀 Rotación: " ++ slots.manana.dir_avg_txt ++ " → " ++ slots.tarde.dir_avg_txt])
  ++ ["", "🌊 Nivel del río (San Fernando 06–20 h):"]

/-- fmt_whatsapp as a list of lines (lines 159-182). -/
def fmt_whatsapp_lines (day_name sem temp : String) (slots : Slots) (lluvia : String)
    (river : Option RiverLevel) : List String :=
  whatsapp_core day_name sem temp slots lluvia ++ [whatsapp_river_line river]

/-- fmt_whatsapp (lines 159-182). -/
def fmt_whatsapp (day_name sem temp : String) (slots : Slots) (lluvia : String)
    (river : Option RiverLevel) : String :=
  String.intercalate "\n" (fmt_whatsapp_lines day_name sem temp slots lluvia river)

/-- The technical note of fmt_tecnico (lines 199-204): storm-surge advisory when
some slot direction is SE or SSE and the maximal gust reaches 30. -/
def nota_tecnica (slots : Slots) : String :=
  let gust_max := max slots.manana.gust_max
    (max (slots.mediodia.getD slots.manana).gust_max slots.tarde.gust_max)
  if ([slots.manana.dir_avg_txt, (slots.mediodia.getD slots.manana).dir_avg_txt,
        slots.tarde.dir_avg_txt].any fun d => d == "SE" || d == "SSE") ∧ 30 ≤ gust_max
  then "⚠️ Posible sudestada por la tarde (SE) con aumento del nivel y deriva."
  else "📝 Rotación y ráfagas dentro de parámetros habituales."

/-- The river table of the technical report (lines 207-211): data rows, or the
literal no-data note. -/
def tecnico_river_section (river : Option RiverLevel) : List String :=
  match river with
  | some r =>
    ["| Hora | Nivel (m) |", "|------|-----------|",
     "| ⏰ " ++ r.t_min ++ " | 🔻 " ++ r.min ++ " (mínima) |",
     "| ⏰ " ++ r.t_max ++ " | 🔺 " ++ r.max ++ " (máxima) |", ""]
  | none => ["_Sin datos de río cargados (use niveles_san_fernando.json)._", ""]

/-- The lines of fmt_tecnico (lines 184-207) before the river table. -/
def tecnico_core (day_name sem temp cond : String) (slots : Slots) : List String :=
  ["### 🗓️ **" ++ day_name ++ "**", sem, ""]
  ++ ["🌡️ **Temperatura:** " ++ temp]
  ++ ["☁️ **Condiciones:** " ++ (if cond = "" then "—" else cond), ""]
  ++ ["💨 **Viento – tabla horaria**",
      "| Franja | Vel. (km/h) | Ráf. (km/h) | Dirección | Rotación |",
      "|--------|-------------:|------------:|-----------|----------|"]
  ++ (match slots.mediodia with
      | some md =>
        ["| 🌅 Mañana | " ++ showRound1 slots.manana.speed_avg ++ " | "
          ++ showRound1 slots.manana.gust_max ++ " | " ++ slots.manana.dir_avg_txt
          ++ " | — |",
         "| ☀️ Mediodía | " ++ showRound1 md.speed_avg ++ " | "
          ++ showRound1 md.gust_max ++ " | " ++ md.dir_avg_txt ++ " | "
          ++ slots.manana.dir_avg_txt ++ " → " ++ md.dir_avg_txt ++ " |",
         "| 🌇 Tarde | " ++ showRound1 slots.tarde.speed_avg ++ " | "
          ++ showRound1 slots.tarde.gust_max ++ " | " ++ slots.tarde.dir_avg_txt
          ++ " | " ++ md.dir_avg_txt ++ " → " ++ slots.tarde.dir_avg_txt ++ " |", "",
         "🌀 **Rosa de vientos – texto**",
         slots.manana.dir_avg_txt ++ " → " ++ md.dir_avg_txt ++ " → "
          ++ slots.tarde.dir_avg_txt, ""]
      | none =>
        ["| 🌅 Mañana | " ++ showRound1 slots.manana.speed_avg ++ " | "
          ++ showRound1 slots.manana.gust_max ++ " | " ++ slots.manana.dir_avg_txt
          ++ " | — |",
         "| 🌇 Tarde | " ++ showRound1 slots.tarde.speed_avg ++ " | "
          ++ showRound1 slots.tarde.gust_max ++ " | " ++ slots.tarde.dir_avg_txt
          ++ " | " ++ slots.manana.dir_avg_txt ++ " → " ++ slots.tarde.dir_avg_txt
          ++ " |", "",
         "🌀 **Rosa de vientos – texto**",
         slots.manana.dir_avg_txt ++ " → " ++ slots.tarde.dir_avg_txt, ""])
  ++ ["**Nota técnica:** " ++ nota_tecnica slots, ""]
  ++ ["🌊 **Nivel del río – San Fernando (06–20 h):**"]

/-- fmt_tecnico as a list of lines (lines 184-212). -/
def fmt_tecnico_lines (day_name sem temp cond : String) (slots : Slots)
    (river : Option RiverLevel) : List String :=
  tecnico_core day_name sem temp cond slots ++ tecnico_river_section river

/-- fmt_tecnico (lines 184-212). -/
def fmt_tecnico (day_name sem temp cond : String) (slots : Slots)
    (river : Option RiverLevel) : String :=
  String.intercalate "\n" (fmt_tecnico_lines day_name sem temp cond slots river)

/-- True when the character list shows two consecutive underscore glyphs. -/
def hasPlaceholder : List Char → Bool
  | [] => false
  | c :: rest =>
    ((c == '_') && (match rest with | c2 :: _ => c2 == '_' | [] => false))
      || hasPlaceholder rest

/- ### Orchestrator -/

/-- Python date.weekday() on a proleptic-Gregorian ordinal: Monday is 0
(ordinal 1 is a Monday). -/
def weekday (n : ℤ) : ℤ := (n - 1) % 7

/-- next_weekend (lines 31-36): the Saturday at or after base, and the Sunday
one day later. Dates are ordinals. -/
def next_weekend (base : ℤ) : ℤ × ℤ :=
  let dow := weekday base
  let days_until_sat := (5 - dow) % 7
  (base + days_until_sat, base + days_until_sat + 1)

/-- The configuration fields that main reads. -/
structure Config where
  models : List String
  feriados : List String
  thr : Thresholds

/-- The effectful collaborators of main, passed in as functions: the forecast
fetch (model, start, end), date rendering (ISO string and day of month), and
the river-level lookup by ISO date. -/
structure Env where
  fetch : String → ℤ → ℤ → HourlySeries
  iso : ℤ → String
  dayNum : ℤ → ℕ
  levels : String → Option RiverLevel

/-- The per-day record built by get_day inside main (lines 235-243). -/
structure DayData where
  h : HourlySeries
  sem : String
  temp : String
  cond : String
  sb : Slots
  st : Slots
  river : Option RiverLevel

/-- get_day (lines 235-243). -/
def get_day (env : Env) (cfg : Config) (hourly : HourlySeries) (d : ℤ) : DayData :=
  let h := day_slice hourly (env.iso d)
  { h := h
    sem := semaforo h cfg.thr
    temp := temp_range h
    cond := precip_text h
    sb := get_slots h true
    st := get_slots h false
    river := env.levels (env.iso d) }

/-- What main computes: the chosen dates, the fetch range end, and the two
documents (as orderd part lists and joined text). -/
structure MainOut where
  sab : ℤ
  dom : ℤ
  feriado : Option ℤ
  fetch_end : ℤ
  wparts : List String
  tparts : List String
  wdoc : String
  tdoc : String

/-- main (lines 214-278) without the file writes: date resolution, holiday
check, fetch and merge, and assembly of the two reports. -/
def main_core (env : Env) (cfg : Config) (today : ℤ) : MainOut :=
  let sab := (next_weekend today).1
  let dom := (next_weekend today).2
  let monday := sab + 2
  let feriado : Option ℤ := if env.iso monday ∈ cfg.feriados then some monday else none
  let fetch_end := feriado.getD dom
  let models := cfg.models.map fun m => env.fetch m sab fetch_end
  let hourly := aggregate_models models
  let dsab := get_day env cfg hourly sab
  let ddom := get_day env cfg hourly dom
  let wparts :=
    ["Queridas socias y socios:\nLes compartimos el pronóstico para este fin de semana:\n"]
    ++ [fmt_whatsapp ("Sábado " ++ toString (env.dayNum sab)) dsab.sem dsab.temp
        dsab.st dsab.cond dsab.river]
    ++ ["---"]
    ++ [fmt_whatsapp ("Domingo " ++ toString (env.dayNum dom)) ddom.sem ddom.temp
        ddom.st ddom.cond ddom.river]
    ++ (match feriado with
        | some f =>
          let dfer := get_day env cfg hourly f
          ["---", fmt_whatsapp ("Lunes " ++ toString (env.dayNum f)) dfer.sem dfer.temp
            dfer.st dfer.cond dfer.river]
        | none => [])
    ++ ["\nNos vemos en el club 🛶"]
  let tparts :=
    ["Estimadas socias y socios:\n**Cobertura:** Sábado y Domingo"
      ++ (match feriado with
          | some f => " y Lunes " ++ toString (env.dayNum f)
          | none => "")
      ++ "\n**Zona:** Delta – centro en Belén de Escobar\n"]
    ++ ["---\n"]
    ++ [fmt_tecnico ("Sábado " ++ toString (env.dayNum sab)) dsab.sem dsab.temp
        dsab.cond dsab.st dsab.river]
    ++ ["---\n"]
    ++ [fmt_tecnico ("Domingo " ++ toString (env.dayNum dom)) ddom.sem ddom.temp
        ddom.cond ddom.st ddom.river]
    ++ (match feriado with
        | some f =>
          let dfer := get_day env cfg hourly f
          ["---\n", fmt_tecnico ("Lunes " ++ toString (env.dayNum f)) dfer.sem
            dfer.temp dfer.cond dfer.st dfer.river]
        | none => [])
    ++ ["\nNos encontramos en el club para compartir la experiencia.\nCRNBE"]
  { sab := sab, dom := dom, feriado := feriado, fetch_end := fetch_end,
    wparts := wparts, tparts := tparts,
    wdoc := String.intercalate "\n" wparts, tdoc := String.intercalate "\n" tparts }

/- ### Arithmetic facts about fmod -/

theorem fmod_eq (x y : ℝ) (hy : y ≠ 0) : fmod x y = y * Int.fract (x / y) := by
  rw [fmod, Int.fract, mul_sub, mul_div_cancel₀ _ hy]

theorem fmod_nonneg (x : ℝ) {y : ℝ} (hy : 0 < y) : 0 ≤ fmod x y := by
  rw [fmod_eq x y hy.ne.symm]
  exact mul_nonneg hy.le (Int.fract_nonneg _)

theorem fmod_lt (x : ℝ) {y : ℝ} (hy : 0 < y) : fmod x y < y := by
  rw [fmod_eq x y hy.ne.symm]
  calc y * Int.fract (x / y) < y * 1 := by
        exact mul_lt_mul_of_pos_left (Int.fract_lt_one _) hy
    _ = y := mul_one y

theorem fmod_add_right (x : ℝ) {y : ℝ} (hy : y ≠ 0) : fmod (x + y) y = fmod x y := by
  have h : (x + y) / y = x / y + 1 := by field_simp
  rw [fmod, fmod, h]
  push_cast [Int.floor_add_one]
  ring

theorem fmod_eq_self {x y : ℝ} (h0 : 0 ≤ x) (h1 : x < y) : fmod x y = x := by
  have hy : 0 < y := lt_of_le_of_lt h0 h1
  have : ⌊x / y⌋ = 0 := by
    rw [Int.floor_eq_zero_iff]
    constructor
    · exact div_nonneg h0 hy.le
    · rw [div_lt_one hy]; exact h1
  rw [fmod, this]
  simp

/- ### atan2 on the unit circle -/

theorem atan2_cos_sin {θ : ℝ} (h : θ ∈ Set.Ioc (-Real.pi) Real.pi) :
    atan2 (Real.sin θ) (Real.cos θ) = θ := by
  rw [atan2, Complex.mk_eq_add_mul_I, Complex.ofReal_cos, Complex.ofReal_sin]
  exact Complex.arg_cos_add_sin_mul_I h

theorem atan2_zero_of_nonneg {x : ℝ} (hx : 0 ≤ x) : atan2 0 x = 0 := by
  rw [atan2]
  have : (⟨x, 0⟩ : ℂ) = (x : ℂ) := by
    rw [Complex.mk_eq_add_mul_I]
    simp
  rw [this]
  exact Complex.arg_ofReal_of_nonneg hx

theorem degrees_radians (v : ℝ) : degrees (radians v) = v := by
  rw [degrees, radians]
  field_simp

/-- A single direction in [0, 360) passes through the circular mean unchanged. -/
theorem circular_mean_deg_single {v : ℝ} (h0 : 0 ≤ v) (h1 : v < 360) :
    circular_mean_deg [v] = v := by
  have hpi := Real.pi_pos
  rw [circular_mean_deg]
  simp only [List.map_cons, List.map_nil, List.sum_cons, List.sum_nil, add_zero]
  rcases le_or_lt v 180 with hv | hv
  · have hmem : radians v ∈ Set.Ioc (-Real.pi) Real.pi := by
      constructor
      · rw [radians]; nlinarith
      · rw [radians]; nlinarith
    rw [atan2_cos_sin hmem, degrees_radians, fmod_add_right v (by norm_num),
      fmod_eq_self h0 h1]
  · have hshift : radians v = radians (v - 360) + 2 * Real.pi := by
      rw [radians, radians]; ring
    have hs : Real.sin (radians v) = Real.sin (radians (v - 360)) := by
      rw [hshift, Real.sin_add_two_pi]
    have hc : Real.cos (radians v) = Real.cos (radians (v - 360)) := by
      rw [hshift, Real.cos_add_two_pi]
    have hmem : radians (v - 360) ∈ Set.Ioc (-Real.pi) Real.pi := by
      constructor
      · rw [radians]; nlinarith
      · rw [radians]; nlinarith
    rw [hs, hc, atan2_cos_sin hmem, degrees_radians]
    have : v - 360 + 360 = v := by ring
    rw [this, fmod_eq_self h0 h1]

/-- Circular mean of 350 and 10 degrees: the vector components cancel to a
direction of zero. -/
theorem circular_mean_deg_350_10 : circular_mean_deg [350, 10] = 0 := by
  have hpi := Real.pi_pos
  rw [circular_mean_deg]
  simp only [List.map_cons, List.map_nil, List.sum_cons, List.sum_nil, add_zero]
  have h350 : radians 350 = -(radians 10) + 2 * Real.pi := by
    rw [radians, radians]; ring
  have hs : Real.sin (radians 350) + Real.sin (radians 10) = 0 := by
    rw [h350, Real.sin_add_two_pi, Real.sin_neg]; ring
  have hc : Real.cos (radians 350) + Real.cos (radians 10) =
      2 * Real.cos (radians 10) := by
    rw [h350, Real.cos_add_two_pi, Real.cos_neg]; ring
  rw [hs, hc, atan2_zero_of_nonneg, degrees, zero_mul, zero_div, zero_add]
  · rw [fmod, div_self (by norm_num : (360 : ℝ) ≠ 0), Int.floor_one]
    norm_num
  · have : Real.cos (radians 10) > 0 := by
      apply Real.cos_pos_of_mem_Ioo
      constructor
      · rw [radians]; nlinarith
      · rw [radians]; nlinarith
    nlinarith

theorem floorEq {x : ℝ} (n : ℤ) (h1 : (n : ℝ) ≤ x) (h2 : x < n + 1) : ⌊x⌋ = n := by
  rw [Int.floor_eq_iff]
  exact ⟨h1, h2⟩

theorem ceilEq {x : ℝ} (n : ℤ) (h1 : (n : ℝ) - 1 < x) (h2 : x ≤ n) : ⌈x⌉ = n := by
  rw [Int.ceil_eq_iff]
  exact ⟨h1, h2⟩

/- ### Claims -/

/-- C1: on every non-empty direction list, circular_mean_deg is the atan2 of
the summed sines and cosines of the inputs in radians, converted to degrees
and reduced into [0, 360) by modulo; the circular mean of 350 and 10 is 0. -/
theorem circular_mean_deg_is_vector_average (degs : List ℝ) (_hne : degs ≠ []) :
    circular_mean_deg degs =
      fmod (degrees (atan2 ((degs.map fun d => Real.sin (radians d)).sum)
        ((degs.map fun d => Real.cos (radians d)).sum))) 360 ∧
    0 ≤ circular_mean_deg degs ∧ circular_mean_deg degs < 360 ∧
    circular_mean_deg [350, 10] = 0 := by
  refine ⟨?_, ?_, ?_, circular_mean_deg_350_10⟩
  · rw [circular_mean_deg]
    exact fmod_add_right _ (by norm_num)
  · rw [circular_mean_deg]
    exact fmod_nonneg _ (by norm_num)
  · rw [circular_mean_deg]
    exact fmod_lt _ (by norm_num)

/-- C1 witness at the list [350, 10]. -/
theorem circular_mean_deg_is_vector_average_witness : circular_mean_deg [350, 10] = 0 :=
  (circular_mean_deg_is_vector_average [350, 10] (by simp)).2.2.2

/-- C2: the risk classifier takes the maximal sustained speed and gust over the
two concise windows and the maximal present precipitation probability of the
day (0 when all are absent), then walks the green/yellow/red ladder in order. -/
theorem semaforo_threshold_ladder (h : HourlySeries) (thr : Thresholds) :
    semaforo h thr =
      (let sust := max (stats_for_window h 6 12).speed_avg
         (stats_for_window h 12 20).speed_avg
       let gust := max (stats_for_window h 6 12).gust_max
         (stats_for_window h 12 20).gust_max
       let prob := if (h.precipitation_probability.filterMap id).isEmpty then (0 : ℝ)
         else pymax (h.precipitation_probability.filterMap id) 0
       if sust ≤ thr.green_max_sust ∧ gust ≤ thr.green_max_gust ∧ prob < 50 then "🟢"
       else if sust ≤ thr.yellow_max_sust ∧ gust ≤ thr.yellow_max_gust ∧ prob < 70
       then "🟡"
       else "🔴") := by
  rcases hl : h.precipitation_probability.filterMap id with _ | ⟨x, xs⟩
  · simp [semaforo, get_slots, hl, pymax]
  · simp [semaforo, get_slots, hl]

/-- C3 counterexample: at -90 degrees the code truncates toward zero, landing on
label ONO, while the round-to-nearest table index of the claim gives O. -/
theorem deg_to_compass_es_counterexample :
    deg_to_compass_es (-90) = "ONO" ∧
    COMPASS_16.getD ((round ((-90 : ℝ) / 22.5) % 16).toNat) "" = "O" ∧
    deg_to_compass_es (-90) ≠
      COMPASS_16.getD ((round ((-90 : ℝ) / 22.5) % 16).toNat) "" := by
  have hdiv : (-90 : ℝ) / 22.5 = -4 := by norm_num
  have h1 : deg_to_compass_es (-90) = "ONO" := by
    rw [deg_to_compass_es, pyInt]
    rw [if_neg (by rw [hdiv]; norm_num)]
    rw [show (-90 : ℝ) / 22.5 + 0.5 = -3.5 by rw [hdiv]; norm_num]
    rw [ceilEq (-3) (by norm_num) (by norm_num)]
    rfl
  have h2 : COMPASS_16.getD ((round ((-90 : ℝ) / 22.5) % 16).toNat) "" = "O" := by
    rw [hdiv, round_eq, show (-4 : ℝ) + 1 / 2 = -3.5 by norm_num]
    rw [floorEq (-4) (by norm_num) (by norm_num)]
    rfl
  refine ⟨h1, h2, ?_⟩
  rw [h1, h2]
  decide

/-- C3 (amended): for nonnegative degree inputs deg_to_compass_es is the label
at index round(deg/22.5) mod 16 of the fixed table; 0 maps to N, 90 to E,
180 to S, 270 to O and the boundary 11.25 to NNE. -/
theorem deg_to_compass_es_round_table (deg : ℝ) (h : 0 ≤ deg) :
    deg_to_compass_es deg = COMPASS_16.getD ((round (deg / 22.5) % 16).toNat) "" ∧
    deg_to_compass_es 0 = "N" ∧ deg_to_compass_es 90 = "E" ∧
    deg_to_compass_es 180 = "S" ∧ deg_to_compass_es 270 = "O" ∧
    deg_to_compass_es 11.25 = "NNE" := by
  have hval : ∀ x : ℝ, 0 ≤ x → ∀ n : ℤ, ⌊x / 22.5 + 0.5⌋ = n →
      deg_to_compass_es x = COMPASS_16.getD ((n % 16).toNat) "" := by
    intro x hx n hn
    have hq : (0 : ℝ) ≤ x / 22.5 := div_nonneg hx (by norm_num)
    rw [deg_to_compass_es, pyInt, if_pos (by linarith), hn]
  have hgen : deg_to_compass_es deg =
      COMPASS_16.getD ((round (deg / 22.5) % 16).toNat) "" := by
    have hq : (0 : ℝ) ≤ deg / 22.5 := div_nonneg h (by norm_num)
    rw [deg_to_compass_es, pyInt, if_pos (by linarith), round_eq,
      show deg / 22.5 + 0.5 = deg / 22.5 + 1 / 2 by norm_num]
  refine ⟨hgen, ?_, ?_, ?_, ?_, ?_⟩
  · rw [hval 0 le_rfl 0 (floorEq 0 (by norm_num) (by norm_num))]; rfl
  · rw [hval 90 (by norm_num) 4 (floorEq 4 (by norm_num) (by norm_num))]; rfl
  · rw [hval 180 (by norm_num) 8 (floorEq 8 (by norm_num) (by norm_num))]; rfl
  · rw [hval 270 (by norm_num) 12 (floorEq 12 (by norm_num) (by norm_num))]; rfl
  · rw [hval 11.25 (by norm_num) 1 (floorEq 1 (by norm_num) (by norm_num))]; rfl

/-- C3 witness at the boundary input 11.25. -/
theorem deg_to_compass_es_round_table_witness : deg_to_compass_es 11.25 = "NNE" :=
  (deg_to_compass_es_round_table 11.25 (by norm_num)).2.2.2.2.2

theorem getD_range_map {α : Type*} (g : ℕ → α) {n i : ℕ} (hi : i < n) (d : α) :
    ((List.range n).map g).getD i d = g i := by
  rw [List.getD_eq_getElem?_getD, List.getElem?_map, List.getElem?_range hi]
  rfl

theorem mergeArith_getD (models : List HourlySeries)
    (f : HourlySeries → List (Option ℝ)) {n i : ℕ} (hi : i < n) :
    (mergeArith models f n).getD i none =
      (if (presentAt models f i).isEmpty then none
       else some ((presentAt models f i).sum / ((presentAt models f i).length : ℝ))) := by
  rw [mergeArith, getD_range_map _ hi]

theorem mergeDir_getD (models : List HourlySeries) {n i : ℕ} (hi : i < n) :
    (mergeDir models n).getD i none =
      (if (presentAt models (fun m => m.wind_direction_10m) i).isEmpty then none
       else some (circular_mean_deg
         (presentAt models (fun m => m.wind_direction_10m) i))) := by
  rw [mergeDir, getD_range_map _ hi]

/-- C4 (amended): per index and field the merger takes the circular mean of the
present direction values and the arithmetic mean of the present values of every
other field; a single present value in [0, 360) for direction, or any single
present scalar value, passes through unchanged, and an index absent in all
models stays absent. -/
theorem aggregate_models_pointwise_merge (m0 : HourlySeries) (ms : List HourlySeries)
    (i : ℕ)
    (_hwf : ∀ m ∈ m0 :: ms, m.wf ∧ m.time.length = m0.time.length)
    (hi : i < m0.time.length) :
    ((aggregate_models (m0 :: ms)).wind_direction_10m.getD i none =
      (if (presentAt (m0 :: ms) (fun m => m.wind_direction_10m) i).isEmpty then none
       else some (circular_mean_deg
         (presentAt (m0 :: ms) (fun m => m.wind_direction_10m) i)))) ∧
    ((aggregate_models (m0 :: ms)).temperature_2m.getD i none =
      (if (presentAt (m0 :: ms) (fun m => m.temperature_2m) i).isEmpty then none
       else some ((presentAt (m0 :: ms) (fun m => m.temperature_2m) i).sum /
         ((presentAt (m0 :: ms) (fun m => m.temperature_2m) i).length : ℝ)))) ∧
    ((aggregate_models (m0 :: ms)).wind_speed_10m.getD i none =
      (if (presentAt (m0 :: ms) (fun m => m.wind_speed_10m) i).isEmpty then none
       else some ((presentAt (m0 :: ms) (fun m => m.wind_speed_10m) i).sum /
         ((presentAt (m0 :: ms) (fun m => m.wind_speed_10m) i).length : ℝ)))) ∧
    ((aggregate_models (m0 :: ms)).wind_gusts_10m.getD i none =
      (if (presentAt (m0 :: ms) (fun m => m.wind_gusts_10m) i).isEmpty then none
       else some ((presentAt (m0 :: ms) (fun m => m.wind_gusts_10m) i).sum /
         ((presentAt (m0 :: ms) (fun m => m.wind_gusts_10m) i).length : ℝ)))) ∧
    ((aggregate_models (m0 :: ms)).precipitation_probability.getD i none =
      (if (presentAt (m0 :: ms) (fun m => m.precipitation_probability) i).isEmpty
       then none
       else some ((presentAt (m0 :: ms) (fun m => m.precipitation_probability) i).sum /
         ((presentAt (m0 :: ms) (fun m => m.precipitation_probability) i).length : ℝ)))) ∧
    (∀ v : ℝ, 0 ≤ v → v < 360 →
      presentAt (m0 :: ms) (fun m => m.wind_direction_10m) i = [v] →
      (aggregate_models (m0 :: ms)).wind_direction_10m.getD i none = some v) ∧
    (∀ f : HourlySeries → List (Option ℝ), ∀ v : ℝ,
      presentAt (m0 :: ms) f i = [v] →
      (mergeArith (m0 :: ms) f m0.time.length).getD i none = some v) ∧
    (∀ f : HourlySeries → List (Option ℝ),
      presentAt (m0 :: ms) f i = [] →
      (mergeArith (m0 :: ms) f m0.time.length).getD i none = none) ∧
    (presentAt (m0 :: ms) (fun m => m.wind_direction_10m) i = [] →
      (aggregate_models (m0 :: ms)).wind_direction_10m.getD i none = none) := by
  refine ⟨?_, ?_, ?_, ?_, ?_, ?_, ?_, ?_, ?_⟩
  · exact mergeDir_getD (m0 :: ms) hi
  · exact mergeArith_getD (m0 :: ms) _ hi
  · exact mergeArith_getD (m0 :: ms) _ hi
  · exact mergeArith_getD (m0 :: ms) _ hi
  · exact mergeArith_getD (m0 :: ms) _ hi
  · intro v h0 h1 hv
    show (mergeDir (m0 :: ms) m0.time.length).getD i none = some v
    rw [mergeDir_getD (m0 :: ms) hi, hv]
    simp [circular_mean_deg_single h0 h1]
  · intro f v hv
    rw [mergeArith_getD (m0 :: ms) f hi, hv]
    simp
  · intro f hv
    rw [mergeArith_getD (m0 :: ms) f hi, hv]
    rfl
  · intro hv
    show (mergeDir (m0 :: ms) m0.time.length).getD i none = none
    rw [mergeDir_getD (m0 :: ms) hi, hv]
    rfl

/-- A one-hour series whose only present field is a direction of 90 degrees. -/
def wmA : HourlySeries :=
  ⟨["2025-01-04T06:00"], [none], [none], [none], [some 90], [none]⟩

/-- A one-hour series with every field absent. -/
def wmB : HourlySeries :=
  ⟨["2025-01-04T06:00"], [none], [none], [none], [none], [none]⟩

/-- C4 witness: merging a present direction of 90 with an absent one yields 90
unchanged, and a field absent in both models stays absent. -/
theorem aggregate_models_pointwise_merge_witness :
    (aggregate_models [wmA, wmB]).wind_direction_10m.getD 0 none = some 90 ∧
    (aggregate_models [wmA, wmB]).temperature_2m.getD 0 none = none := by
  have H := aggregate_models_pointwise_merge wmA [wmB] 0 (by decide) (by decide)
  refine ⟨H.2.2.2.2.2.1 90 (by norm_num) (by norm_num) rfl, ?_⟩
  have h8 := H.2.2.2.2.2.2.2.1 (fun m => m.temperature_2m) rfl
  calc (aggregate_models [wmA, wmB]).temperature_2m.getD 0 none
      = (mergeArith [wmA, wmB] (fun m => m.temperature_2m) wmA.time.length).getD 0 none := rfl
    _ = none := h8

/-- A one-hour series whose only present field is a direction of exactly 360. -/
def wmC : HourlySeries :=
  ⟨["t"], [none], [none], [none], [some 360], [none]⟩

theorem circular_mean_deg_360 : circular_mean_deg [360] = 0 := by
  have h360 : radians 360 = 0 + 2 * Real.pi := by rw [radians]; ring
  rw [circular_mean_deg]
  simp only [List.map_cons, List.map_nil, List.sum_cons, List.sum_nil, add_zero]
  rw [h360, Real.sin_add_two_pi, Real.cos_add_two_pi, Real.sin_zero, Real.cos_zero,
    atan2_zero_of_nonneg (by norm_num), degrees, zero_mul, zero_div, zero_add,
    fmod, div_self (by norm_num : (360 : ℝ) ≠ 0), Int.floor_one]
  norm_num

/-- C4 counterexample: within the spec's stated 0-360 direction range, a single
present direction of exactly 360 degrees is not yielded unchanged: the merged
value is 0. -/
theorem aggregate_models_single_360_counterexample :
    presentAt [wmC, wmB] (fun m => m.wind_direction_10m) 0 = [360] ∧
    (aggregate_models [wmC, wmB]).wind_direction_10m.getD 0 none = some 0 ∧
    (0 : ℝ) ≠ 360 := by
  refine ⟨rfl, ?_, by norm_num⟩
  have h := mergeDir_getD [wmC, wmB] (i := 0) (n := 1) (by norm_num)
  calc (aggregate_models [wmC, wmB]).wind_direction_10m.getD 0 none
      = (mergeDir [wmC, wmB] 1).getD 0 none := rfl
    _ = some (circular_mean_deg [360]) := by rw [h]; rfl
    _ = some 0 := by rw [circular_mean_deg_360]

instance {α : Type*} (l : List α) : Decidable (l = []) :=
  match l with
  | [] => isTrue rfl
  | _ :: _ => isFalse (by simp)

theorem ite_isEmpty_eq_ite_nil {α β : Type*} (l : List α) (a b : β) :
    (if l.isEmpty then a else b) = (if l = [] then a else b) := by
  cases l <;> simp

theorem pymax_eq_ite (l : List ℝ) : pymax l 0 = if l = [] then 0 else pymax l 0 := by
  cases l <;> simp [pymax]

theorem ite_isEmpty_label {β : Type*} (l : List ℝ) (f : ℝ → β) (z : ℝ) (e : β) :
    (if l.isEmpty then e else f (if l.isEmpty then z else circular_mean_deg l)) =
      (if l = [] then e else f (circular_mean_deg l)) := by
  cases l <;> simp

/-- C5: the window aggregator selects the indices whose hour lies in [h0, h1),
filters absent values per field, and yields mean speed, maximal gust and
circular mean direction; an empty selection gives the all-zero statistics with
an empty label, and an entirely absent field inside a non-empty selection
falls back to zero (empty label for direction). -/
theorem stats_for_window_spec (h : HourlySeries) (h0 h1 : ℕ) :
    (∀ i : ℕ, i ∈ window_idx h.time h0 h1 ↔
      ∃ t, h.time[i]? = some t ∧ h0 ≤ hourOf t ∧ hourOf t < h1) ∧
    (window_idx h.time h0 h1 = [] → stats_for_window h h0 h1 = ⟨0, 0, 0, ""⟩) ∧
    (window_idx h.time h0 h1 ≠ [] →
      stats_for_window h h0 h1 =
        ⟨(let speeds := (window_idx h.time h0 h1).filterMap
            fun i => h.wind_speed_10m.getD i none
          if speeds = [] then 0 else speeds.sum / (speeds.length : ℝ)),
         (let gusts := (window_idx h.time h0 h1).filterMap
            fun i => h.wind_gusts_10m.getD i none
          if gusts = [] then 0 else pymax gusts 0),
         (let dirs := (window_idx h.time h0 h1).filterMap
            fun i => h.wind_direction_10m.getD i none
          if dirs = [] then 0 else circular_mean_deg dirs),
         (let dirs := (window_idx h.time h0 h1).filterMap
            fun i => h.wind_direction_10m.getD i none
          if dirs = [] then "" else deg_to_compass_es (circular_mean_deg dirs))⟩) := by
  refine ⟨?_, ?_, ?_⟩
  · intro i
    simp only [window_idx, List.mem_map, List.mem_filter]
    constructor
    · rintro ⟨⟨j, t⟩, ⟨hmem, hP⟩, hfst⟩
      simp only at hfst
      subst hfst
      simp only [Bool.and_eq_true, decide_eq_true_eq] at hP
      exact ⟨t, List.mk_mem_enum_iff_getElem?.mp hmem, hP.1, hP.2⟩
    · rintro ⟨t, hget, ha, hb⟩
      exact ⟨(i, t), ⟨List.mk_mem_enum_iff_getElem?.mpr hget, by simp [ha, hb]⟩, rfl⟩
  · intro hempty
    simp [stats_for_window, hempty]
  · intro hne
    have hbe : (window_idx h.time h0 h1).isEmpty = false := by
      cases hw : window_idx h.time h0 h1
      · exact absurd hw hne
      · rfl
    simp only [stats_for_window, hbe, Bool.false_eq_true, if_false]
    congr 1
    · exact ite_isEmpty_eq_ite_nil _ _ _
    · exact pymax_eq_ite _
    · exact ite_isEmpty_eq_ite_nil _ _ _
    · exact ite_isEmpty_label _ _ _ _

theorem enumFrom_filter_snd_map_snd {α : Type*} (Q : α → Bool) :
    ∀ (l : List α) (n : ℕ),
      ((l.enumFrom n).filter fun p => Q p.2).map Prod.snd = l.filter Q := by
  intro l
  induction l with
  | nil => intro n; rfl
  | cons a as ih =>
    intro n
    cases hq : Q a <;> simp [List.enumFrom_cons, List.filter_cons, hq, ih]

/-- A series spanning three consecutive days in the upstream timestamp format. -/
def twoDaySeries : HourlySeries :=
  ⟨["2025-10-10T22:00", "2025-10-10T23:00", "2025-10-11T00:00", "2025-10-11T12:00",
    "2025-10-11T23:00", "2025-10-12T00:00", "2025-10-12T01:00"],
   [some 11, some 12, some 13, some 14, some 15, some 16, some 17],
   [some 21, some 22, some 23, some 24, some 25, some 26, some 27],
   [some 31, some 32, some 33, some 34, some 35, some 36, some 37],
   [some 41, none, some 43, some 44, some 45, some 46, some 47],
   [none, none, none, some 54, none, none, some 57]⟩

/-- C6: the day slicer keeps exactly the timestamps lying lexicographically in
the inclusive range dT00:00 .. dT23:59; on a series spanning adjacent days it
returns the requested day's hours only. -/
theorem day_slice_lex_selection (hourly : HourlySeries) (d : String) :
    ((day_slice hourly d).time = hourly.time.filter
      (fun t => strLe (d ++ "T00:00") t && strLe t (d ++ "T23:59"))) ∧
    day_slice twoDaySeries "2025-10-11" =
      ⟨["2025-10-11T00:00", "2025-10-11T12:00", "2025-10-11T23:00"],
       [some 13, some 14, some 15], [some 23, some 24, some 25],
       [some 33, some 34, some 35], [some 43, some 44, some 45],
       [none, some 54, none]⟩ := by
  constructor
  · show ((hourly.time.enumFrom 0).filter _).map Prod.snd = _
    exact enumFrom_filter_snd_map_snd
      (fun t => strLe (d ++ "T00:00") t && strLe t (d ++ "T23:59")) hourly.time 0
  · rfl

/-- C7: the technical note is the storm-surge advisory exactly when one of the
three slot direction labels is SE or SSE and the maximal gust over the slots
reaches 30; otherwise it is the routine note; the note line appears in the
technical report. -/
theorem nota_tecnica_sudestada_rule (day_name sem temp cond : String) (slots : Slots)
    (river : Option RiverLevel) :
    ("**Nota técnica:** " ++ nota_tecnica slots)
        ∈ fmt_tecnico_lines day_name sem temp cond slots river ∧
    (nota_tecnica slots =
        "⚠️ Posible sudestada por la tarde (SE) con aumento del nivel y deriva." ↔
      ((slots.manana.dir_avg_txt = "SE" ∨ slots.manana.dir_avg_txt = "SSE" ∨
        (slots.mediodia.getD slots.manana).dir_avg_txt = "SE" ∨
        (slots.mediodia.getD slots.manana).dir_avg_txt = "SSE" ∨
        slots.tarde.dir_avg_txt = "SE" ∨ slots.tarde.dir_avg_txt = "SSE") ∧
       30 ≤ max slots.manana.gust_max
         (max (slots.mediodia.getD slots.manana).gust_max slots.tarde.gust_max))) ∧
    (nota_tecnica slots ≠
        "⚠️ Posible sudestada por la tarde (SE) con aumento del nivel y deriva." →
      nota_tecnica slots = "📝 Rotación y ráfagas dentro de parámetros habituales.") ∧
    nota_tecnica ⟨⟨0, 20, 0, "SE"⟩, some ⟨0, 32, 0, "SE"⟩, ⟨0, 25, 0, "SSE"⟩⟩ =
      "⚠️ Posible sudestada por la tarde (SE) con aumento del nivel y deriva." ∧
    nota_tecnica ⟨⟨0, 32, 0, "N"⟩, some ⟨0, 32, 0, "N"⟩, ⟨0, 32, 0, "N"⟩⟩ =
      "📝 Rotación y ráfagas dentro de parámetros habituales." := by
  refine ⟨?_, ?_, ?_, ?_, ?_⟩
  · rcases slots with ⟨m, md, t⟩
    cases md <;>
      simp [fmt_tecnico_lines, tecnico_core, List.mem_append, List.mem_cons]
  · simp only [nota_tecnica]
    by_cases hc : (([slots.manana.dir_avg_txt, (slots.mediodia.getD slots.manana).dir_avg_txt,
        slots.tarde.dir_avg_txt].any fun d => d == "SE" || d == "SSE") = true) ∧
        30 ≤ max slots.manana.gust_max
          (max (slots.mediodia.getD slots.manana).gust_max slots.tarde.gust_max)
    · rw [if_pos hc]
      constructor
      · intro _
        refine ⟨?_, hc.2⟩
        have h1 := hc.1
        simp only [List.any_cons, List.any_nil, Bool.or_eq_true, beq_iff_eq,
          Bool.or_false] at h1
        tauto
      · intro _
        rfl
    · rw [if_neg hc]
      constructor
      · intro hR
        exact absurd hR (by decide)
      · intro hbig
        exfalso
        apply hc
        refine ⟨?_, hbig.2⟩
        simp only [List.any_cons, List.any_nil, Bool.or_eq_true, beq_iff_eq,
          Bool.or_false]
        tauto
  · intro hne'
    simp only [nota_tecnica] at hne' ⊢
    by_cases hc : (([slots.manana.dir_avg_txt, (slots.mediodia.getD slots.manana).dir_avg_txt,
        slots.tarde.dir_avg_txt].any fun d => d == "SE" || d == "SSE") = true) ∧
        30 ≤ max slots.manana.gust_max
          (max (slots.mediodia.getD slots.manana).gust_max slots.tarde.gust_max)
    · rw [if_pos hc] at hne'
      exact absurd rfl hne'
    · rw [if_neg hc]
  · simp only [nota_tecnica]
    rw [if_pos]
    constructor
    · decide
    · have : (30 : ℝ) ≤ 32 := by norm_num
      simp only [Option.getD_some]
      rw [le_max_iff, le_max_iff]
      tauto
  · simp only [nota_tecnica]
    rw [if_neg]
    rintro ⟨h1, -⟩
    simp only [Option.getD_some] at h1
    exact absurd h1 (by decide)

/-- C9 (amended): with no river reading the concise report renders the literal
double-underscore placeholder line and the technical report renders the
literal no-data note; with a reading both render its min and max level and
time; the river argument only ever selects the trailing river section, so its
absence changes no other section. -/
theorem river_section_rendering (day_name sem temp cond lluvia : String) (slots : Slots)
    (r : RiverLevel) :
    (∀ river : Option RiverLevel,
      fmt_whatsapp_lines day_name sem temp slots lluvia river =
        whatsapp_core day_name sem temp slots lluvia ++ [whatsapp_river_line river] ∧
      fmt_tecnico_lines day_name sem temp cond slots river =
        tecnico_core day_name sem temp cond slots ++ tecnico_river_section river) ∧
    whatsapp_river_line none = "🔻 __ m (__:__) / 🔺 __ m (__:__)" ∧
    hasPlaceholder ("🔻 __ m (__:__) / 🔺 __ m (__:__)").data = true ∧
    whatsapp_river_line (some r) =
      "🔻 " ++ r.min ++ " m (" ++ r.t_min ++ ") / 🔺 " ++ r.max ++ " m ("
        ++ r.t_max ++ ")" ∧
    tecnico_river_section none =
      ["_Sin datos de río cargados (use niveles_san_fernando.json)._", ""] ∧
    tecnico_river_section (some r) =
      ["| Hora | Nivel (m) |", "|------|-----------|",
       "| ⏰ " ++ r.t_min ++ " | 🔻 " ++ r.min ++ " (mínima) |",
       "| ⏰ " ++ r.t_max ++ " | 🔺 " ++ r.max ++ " (máxima) |", ""] :=
  ⟨fun _ => ⟨rfl, rfl⟩, rfl, by decide, rfl, rfl, rfl⟩

/-- C9 counterexample: the technical report renders no double-underscore
placeholder at all when the reading is absent; its river section is the
no-data note, unlike the concise report's placeholder line. -/
theorem river_placeholder_counterexample :
    (∀ s ∈ tecnico_river_section none, hasPlaceholder s.data = false) ∧
    fmt_tecnico_lines "d" "s" "t" "c" ⟨⟨0, 0, 0, ""⟩, none, ⟨0, 0, 0, ""⟩⟩ none =
      tecnico_core "d" "s" "t" "c" ⟨⟨0, 0, 0, ""⟩, none, ⟨0, 0, 0, ""⟩⟩ ++
        ["_Sin datos de río cargados (use niveles_san_fernando.json)._", ""] ∧
    hasPlaceholder ("🔻 __ m (__:__) / 🔺 __ m (__:__)").data = true := by
  refine ⟨?_, rfl, by decide⟩
  intro s hs
  simp only [tecnico_river_section, List.mem_cons, List.not_mem_nil, or_false] at hs
  rcases hs with rfl | rfl <;> decide

theorem enumFrom_map_snd' {α : Type*} (n : ℕ) (l : List α) :
    (l.enumFrom n).map Prod.snd = l :=
  List.enumFrom_map_snd n l

theorem getElem?_map_of_eq_some {α β : Type*} {l : List α} {j : ℕ} {p : α}
    (hp : l[j]? = some p) (f : α → β) : (l.map f)[j]? = some (f p) := by
  rw [List.getElem?_map, hp]
  rfl

/-- C10: the alignment invariant is preserved: the merged series keeps the
first model's time axis with every field of that length, and the sliced series
keeps equal-length fields whose values all come from the source index of the
selected timestamp, in original order. -/
theorem hourly_series_alignment (m0 : HourlySeries) (ms : List HourlySeries)
    (hourly : HourlySeries) (d : String) :
    (aggregate_models (m0 :: ms)).wf ∧
    (aggregate_models (m0 :: ms)).time = m0.time ∧
    (day_slice hourly d).wf ∧
    List.Sublist (day_slice hourly d).time hourly.time ∧
    (∀ (j : ℕ) (t : String), (day_slice hourly d).time[j]? = some t →
      ∃ i : ℕ, hourly.time[i]? = some t ∧
        (day_slice hourly d).temperature_2m[j]? =
          some (hourly.temperature_2m.getD i none) ∧
        (day_slice hourly d).wind_speed_10m[j]? =
          some (hourly.wind_speed_10m.getD i none) ∧
        (day_slice hourly d).wind_gusts_10m[j]? =
          some (hourly.wind_gusts_10m.getD i none) ∧
        (day_slice hourly d).wind_direction_10m[j]? =
          some (hourly.wind_direction_10m.getD i none) ∧
        (day_slice hourly d).precipitation_probability[j]? =
          some (hourly.precipitation_probability.getD i none)) := by
  refine ⟨?_, rfl, ?_, ?_, ?_⟩
  · simp [HourlySeries.wf, aggregate_models, mergeArith, mergeDir]
  · simp [HourlySeries.wf, day_slice]
  · show List.Sublist (((hourly.time.enumFrom 0).filter fun p =>
        strLe (d ++ "T00:00") p.2 && strLe p.2 (d ++ "T23:59")).map Prod.snd) hourly.time
    have h1 := (List.filter_sublist (p := fun p =>
        strLe (d ++ "T00:00") p.2 && strLe p.2 (d ++ "T23:59"))
        (hourly.time.enumFrom 0)).map Prod.snd
    rwa [enumFrom_map_snd' 0 hourly.time] at h1
  · intro j t hjt
    have hmap : (day_slice hourly d).time[j]? =
        ((hourly.time.enumFrom 0).filter fun p =>
          strLe (d ++ "T00:00") p.2 && strLe p.2 (d ++ "T23:59"))[j]?.map Prod.snd :=
      List.getElem?_map _ _ _
    rw [hmap] at hjt
    rcases hp : ((hourly.time.enumFrom 0).filter fun p =>
        strLe (d ++ "T00:00") p.2 && strLe p.2 (d ++ "T23:59"))[j]? with _ | p
    · rw [hp] at hjt
      simp at hjt
    · rw [hp] at hjt
      rw [Option.map_some'] at hjt
      obtain rfl : p.2 = t := by injection hjt
      have hpmem : p ∈ (hourly.time.enumFrom 0).filter fun q =>
          strLe (d ++ "T00:00") q.2 && strLe q.2 (d ++ "T23:59") :=
        List.getElem?_mem hp
      have hpen : p ∈ hourly.time.enumFrom 0 := (List.mem_filter.mp hpmem).1
      have hidx : hourly.time[p.1]? = some p.2 := by
        have : (p.1, p.2) ∈ hourly.time.enum := by
          show (p.1, p.2) ∈ hourly.time.enumFrom 0
          exact Prod.mk.eta ▸ hpen
        exact List.mk_mem_enum_iff_getElem?.mp this
      exact ⟨p.1, hidx, getElem?_map_of_eq_some hp _, getElem?_map_of_eq_some hp _,
        getElem?_map_of_eq_some hp _, getElem?_map_of_eq_some hp _,
        getElem?_map_of_eq_some hp _⟩

/-- C8: the orchestrator targets the next Saturday at or after the reference
(Saturday mapping to itself), Sunday one day later; when the following Monday
is a configured holiday it becomes the third reporting day, the fetch range
ends at that Monday instead of Sunday, and both documents hold the Saturday,
Sunday and Monday sections in that order. -/
theorem orchestrator_weekend_and_holiday (env : Env) (cfg : Config) (today : ℤ)
    (hfer : env.iso ((next_weekend today).1 + 2) ∈ cfg.feriados) :
    (weekday (next_weekend today).1 = 5 ∧ today ≤ (next_weekend today).1 ∧
      (next_weekend today).1 < today + 7 ∧
      (weekday today = 5 → (next_weekend today).1 = today) ∧
      (next_weekend today).2 = (next_weekend today).1 + 1) ∧
    (main_core env cfg today).feriado = some ((next_weekend today).1 + 2) ∧
    (main_core env cfg today).fetch_end = (next_weekend today).1 + 2 ∧
    (main_core env cfg today).wparts =
      (let sab := (next_weekend today).1
       let dom := (next_weekend today).2
       let mon := sab + 2
       let hourly := aggregate_models (cfg.models.map fun m => env.fetch m sab mon)
       let dsab := get_day env cfg hourly sab
       let ddom := get_day env cfg hourly dom
       let dfer := get_day env cfg hourly mon
       ["Queridas socias y socios:\nLes compartimos el pronóstico para este fin de semana:\n",
        fmt_whatsapp ("Sábado " ++ toString (env.dayNum sab)) dsab.sem dsab.temp
          dsab.st dsab.cond dsab.river,
        "---",
        fmt_whatsapp ("Domingo " ++ toString (env.dayNum dom)) ddom.sem ddom.temp
          ddom.st ddom.cond ddom.river,
        "---",
        fmt_whatsapp ("Lunes " ++ toString (env.dayNum mon)) dfer.sem dfer.temp
          dfer.st dfer.cond dfer.river,
        "\nNos vemos en el club 🛶"]) ∧
    (main_core env cfg today).tparts =
      (let sab := (next_weekend today).1
       let dom := (next_weekend today).2
       let mon := sab + 2
       let hourly := aggregate_models (cfg.models.map fun m => env.fetch m sab mon)
       let dsab := get_day env cfg hourly sab
       let ddom := get_day env cfg hourly dom
       let dfer := get_day env cfg hourly mon
       ["Estimadas socias y socios:\n**Cobertura:** Sábado y Domingo y Lunes "
          ++ toString (env.dayNum mon)
          ++ "\n**Zona:** Delta – centro en Belén de Escobar\n",
        "---\n",
        fmt_tecnico ("Sábado " ++ toString (env.dayNum sab)) dsab.sem dsab.temp
          dsab.cond dsab.st dsab.river,
        "---\n",
        fmt_tecnico ("Domingo " ++ toString (env.dayNum dom)) ddom.sem ddom.temp
          ddom.cond ddom.st ddom.river,
        "---\n",
        fmt_tecnico ("Lunes " ++ toString (env.dayNum mon)) dfer.sem dfer.temp
          dfer.cond dfer.st dfer.river,
        "\nNos encontramos en el club para compartir la experiencia.\nCRNBE"]) := by
  refine ⟨⟨?_, ?_, ?_, ?_, ?_⟩, ?_, ?_, ?_, ?_⟩
  · simp only [next_weekend, weekday]
    omega
  · simp only [next_weekend, weekday]
    omega
  · simp only [next_weekend, weekday]
    omega
  · simp only [next_weekend, weekday]
    omega
  · rfl
  · simp only [main_core]
    rw [if_pos hfer]
  · simp only [main_core]
    rw [if_pos hfer]
    rfl
  · simp only [main_core]
    rw [if_pos hfer]
    rfl
  · simp only [main_core]
    rw [if_pos hfer]
    rfl

/-- A closed test environment: every fetch yields the all-absent one-hour
series, every date renders as the one configured holiday string. -/
def env0 : Env := ⟨fun _ _ _ => wmB, fun _ => "H", fun _ => 1, fun _ => none⟩

/-- A closed test configuration whose holiday list holds that string. -/
def cfg0 : Config := ⟨[], ["H"], ⟨0, 0, 0, 0⟩⟩

/-- C8 witness: in the closed test environment the fetch range ends at the
holiday Monday. -/
theorem orchestrator_weekend_and_holiday_witness :
    (main_core env0 cfg0 0).fetch_end = (next_weekend 0).1 + 2 :=
  (orchestrator_weekend_and_holiday env0 cfg0 0 (by simp [env0, cfg0])).2.2.1

end
